import Mathlib

/-!
Verification development for the audio core of the app repository.

Shallow embedding of:
- the sound session manager (class SoundManager, src/unnamed/part_008);
- the audio bridge initializer (src/services/AudioInit.ts);
- the sound registry (getSoundFile, src/unnamed/part_007);
- the fallback environmental sampling service (src/unnamed/part_009);
- the playback facade (useAudio, src/hooks/useEnvironmentalData.ts).

Native expo-av calls are asynchronous and may throw; each operation is modelled
as a pure function over the manager state together with an explicit fault
oracle recording which native calls throw during that operation, and a
re-probe bit giving the value of checkAvailability when it is re-run inside a
catch block.
-/

namespace SoundManagerModel

/-- Native per-sound state as exposed by the expo-av bridge: the fields read
and written by the manager (getStatusAsync, setPositionAsync,
setIsLoopingAsync, playAsync, pauseAsync, stopAsync). -/
structure NativeSound where
  isLoaded : Bool
  positionMillis : Nat
  isPlaying : Bool
  isLooping : Bool
deriving Repr, DecidableEq

/-- State of the SoundManager singleton (part_008 lines 7-17): the map of
loaded handles, the currentlyPlaying slot and the cached availability flag. -/
structure SMState where
  sounds : List (String × NativeSound)
  currentlyPlaying : Option String
  isAvailable : Bool
deriving Repr, DecidableEq

/-- Fault oracle for one operation: which native calls throw, and the value
checkAvailability returns when re-probed inside a catch block. -/
structure Faults where
  stopThrows : String → Bool
  pauseThrows : String → Bool
  statusThrows : String → Bool
  setPositionThrows : String → Bool
  setLoopingThrows : String → Bool
  playThrows : String → Bool
  createThrows : Bool
  unloadThrows : String → Bool
  reprobe : Bool

/-- Fault-free native environment: no native call throws, and the bridge
module remains present (checkAvailability, part_008 lines 22-29, keeps
returning true). -/
def NoFaults : Faults :=
  { stopThrows := fun _ => false
    pauseThrows := fun _ => false
    statusThrows := fun _ => false
    setPositionThrows := fun _ => false
    setLoopingThrows := fun _ => false
    playThrows := fun _ => false
    createThrows := false
    unloadThrows := fun _ => false
    reprobe := true }

/-- Lookup of a key in the association list backing the handle map. -/
def findNS (l : List (String × NativeSound)) (id : String) : Option NativeSound :=
  (l.find? (fun p => p.1 == id)).map (fun p => p.2)

/-- Lookup in the handle map (this.sounds.get). -/
def lookupSound (s : SMState) (id : String) : Option NativeSound :=
  findNS s.sounds id

/-- Remove every binding of a key from the association list. -/
def eraseKey (l : List (String × NativeSound)) (id : String) : List (String × NativeSound) :=
  l.filter (fun p => p.1 != id)

/-- Write a binding in the handle map (this.sounds.set). -/
def setSound (s : SMState) (id : String) (ns : NativeSound) : SMState :=
  { s with sounds := (id, ns) :: eraseKey s.sounds id }

/-- Delete a binding from the handle map (this.sounds.delete). -/
def removeSound (s : SMState) (id : String) : SMState :=
  { s with sounds := eraseKey s.sounds id }

/-- Model of SoundManager.stopSound (part_008 lines 168-191). On a native
stopAsync exception the catch re-probes availability and still clears the
currentlyPlaying slot defensively (lines 186-189). -/
def stopSound (f : Faults) (s : SMState) (id : String) : SMState :=
  if s.isAvailable = false then s
  else
    match lookupSound s id with
    | none => s
    | some ns =>
      if f.stopThrows id then
        let s1 : SMState := { s with isAvailable := f.reprobe }
        if s1.currentlyPlaying = some id then { s1 with currentlyPlaying := none } else s1
      else
        let s1 := setSound s id { ns with isPlaying := false }
        if s1.currentlyPlaying = some id then { s1 with currentlyPlaying := none } else s1

/-- Model of SoundManager.pauseSound (part_008 lines 144-162). The catch block
only re-probes availability; unlike stopSound it does not clear the
currentlyPlaying slot on error. -/
def pauseSound (f : Faults) (s : SMState) (id : String) : SMState :=
  if s.isAvailable = false then s
  else
    match lookupSound s id with
    | none => s
    | some ns =>
      if f.pauseThrows id then { s with isAvailable := f.reprobe }
      else
        let s1 := setSound s id { ns with isPlaying := false }
        if s1.currentlyPlaying = some id then { s1 with currentlyPlaying := none } else s1

/-- Model of SoundManager.unloadSound (part_008 lines 197-216). -/
def unloadSound (f : Faults) (s : SMState) (id : String) : SMState :=
  if s.isAvailable = false then s
  else
    match lookupSound s id with
    | none => s
    | some _ =>
      if f.unloadThrows id then { s with isAvailable := f.reprobe }
      else
        let s1 := removeSound s id
        if s1.currentlyPlaying = some id then { s1 with currentlyPlaying := none } else s1

/-- Model of SoundManager.loadSound (part_008 lines 37-77): null source fails
soft, an already loaded id is unloaded first, and on a createAsync exception
the catch re-probes availability and deletes the map entry. -/
def loadSound (f : Faults) (s : SMState) (id : String) (source : Option String) :
    Bool × SMState :=
  if s.isAvailable = false then (false, s)
  else
    match source with
    | none => (false, s)
    | some _ =>
      let s1 := if (lookupSound s id).isSome then unloadSound f s id else s
      if f.createThrows then
        (false, removeSound { s1 with isAvailable := f.reprobe } id)
      else
        (true, setSound s1 id
          { isLoaded := true, positionMillis := 0, isPlaying := false, isLooping := false })

/-- Inner try of playSound (part_008 lines 118-128): setIsLoopingAsync then
playAsync; the inner catch returns false without touching the availability
flag, so a looping flag already written stays written. -/
def playStart (f : Faults) (s : SMState) (id : String) (ns : NativeSound) (loop : Bool) :
    Bool × SMState :=
  if f.setLoopingThrows id then (false, s)
  else
    let s1 := setSound s id { ns with isLooping := loop }
    if f.playThrows id then (false, s1)
    else
      (true, { setSound s1 id { ns with isLooping := loop, isPlaying := true } with
                 currentlyPlaying := some id })

/-- Body of playSound after the toggle and lookup guards (part_008 lines
112-132): getStatusAsync, the not-loaded check, the position reset to 0, then
the inner play attempt. getStatusAsync and setPositionAsync exceptions reach
the outer catch (line 133), which re-probes availability. -/
def playAttempt (f : Faults) (s : SMState) (id : String) (ns : NativeSound) (loop : Bool) :
    Bool × SMState :=
  if f.statusThrows id then (false, { s with isAvailable := f.reprobe })
  else if ns.isLoaded = false then (false, s)
  else if 0 < ns.positionMillis then
    if f.setPositionThrows id then (false, { s with isAvailable := f.reprobe })
    else playStart f (setSound s id { ns with positionMillis := 0 }) id
           { ns with positionMillis := 0 } loop
  else playStart f s id ns loop

/-- Model of SoundManager.playSound (part_008 lines 85-138): availability
guard, toggle branch for the currently playing id, not-loaded guard, stop of
a different currently playing sound, then the play attempt on the handle
captured before the stop. -/
def playSound (f : Faults) (s : SMState) (id : String) (loop : Bool) : Bool × SMState :=
  if s.isAvailable = false then (false, s)
  else if s.currentlyPlaying = some id then (false, stopSound f s id)
  else
    match lookupSound s id with
    | none => (false, s)
    | some ns =>
      let s1 :=
        match s.currentlyPlaying with
        | some other => if other = id then s else stopSound f s other
        | none => s
      playAttempt f s1 id ns loop

/-- Model of SoundManager.getPlaybackStatus (part_008 lines 223-243): the
first component is some isPlaying when the handle exists and reports loaded,
none otherwise (null in the source). -/
def getPlaybackStatus (f : Faults) (s : SMState) (id : String) : Option Bool × SMState :=
  if s.isAvailable = false then (none, s)
  else
    match lookupSound s id with
    | none => (none, s)
    | some ns =>
      if f.statusThrows id then (none, { s with isAvailable := f.reprobe })
      else if ns.isLoaded then (some ns.isPlaying, s)
      else (none, s)

/-- Natural completion of sound id: the native layer marks the handle stopped
and fires the observer attached in loadSound (part_008 lines 59-63), whose
body tests only status.isLoaded and status.didJustFinish and then clears
currentlyPlaying unconditionally, without comparing id to the slot. -/
def finishEvent (s : SMState) (id : String) : SMState :=
  match lookupSound s id with
  | none => s
  | some ns =>
    if ns.isLoaded then
      { setSound s id { ns with isPlaying := false, positionMillis := 0 } with
          currentlyPlaying := none }
    else s

/-- Bookkeeping consistency between the native playing flags and the
currentlyPlaying slot: an entry of the handle map is natively playing exactly
when it occupies the slot. -/
def playingConsistent (s : SMState) : Prop :=
  ∀ p ∈ s.sounds, (p.2.isPlaying = true ↔ s.currentlyPlaying = some p.1)

instance (s : SMState) : Decidable (playingConsistent s) := by
  unfold playingConsistent
  infer_instance

end SoundManagerModel

namespace AudioInitModel

/-- Environment of one initialization attempt: module presence and which
native calls throw (src/services/AudioInit.ts lines 30-90). -/
structure InitEnv where
  expoAvAvailable : Bool
  getPermsThrows : Bool
  isAndroid : Bool
  requestPermsThrows : Bool
  setAudioModeThrows : Bool
deriving Repr, DecidableEq

/-- Observable outcome of one run of the private initializer: the resolved
boolean, whether line 83 set the isAudioInitialized flag, and whether line 87
cleared the in-flight memo initializationPromise. -/
structure InitOutcome where
  result : Bool
  setsInitializedFlag : Bool
  clearsPromise : Bool
deriving Repr, DecidableEq

/-- Model of the private initializer (AudioInit.ts lines 30-90). A missing
module resolves false from inside the try (line 37). An exception from the
availability probe getPermissionsAsync is caught by the inner catch at line
44 and resolves false from inside the try, so the outer catch never runs. An
exception from the Android permission request is caught at line 54 and
swallowed, and the run continues. Only an exception reaching the outer catch
at line 85 — in this code one thrown by setAudioModeAsync — clears the
in-flight memo. -/
def initAttempt (e : InitEnv) : InitOutcome :=
  if e.expoAvAvailable = false then { result := false, setsInitializedFlag := false, clearsPromise := false }
  else if e.getPermsThrows then { result := false, setsInitializedFlag := false, clearsPromise := false }
  else
    let _swallowed := e.isAndroid && e.requestPermsThrows
    if e.setAudioModeThrows then { result := false, setsInitializedFlag := false, clearsPromise := true }
    else { result := true, setsInitializedFlag := true, clearsPromise := false }

/-- Module-level state of AudioInit.ts (lines 4-5): the memoized success flag
and the in-flight promise, identified by a numeric label. -/
structure AudioInitState where
  isAudioInitialized : Bool
  initializationPromise : Option Nat
deriving Repr, DecidableEq

/-- What one call of initializeAudio returned: the cached true, the promise
of an initialization already in flight, or a freshly started one. Only the
started variant runs the underlying probe. -/
inductive InitCall where
  | memoized : InitCall
  | joined : Nat → InitCall
  | started : Nat → InitCall
deriving Repr, DecidableEq

/-- Model of initializeAudio (AudioInit.ts lines 11-25): return cached
success, else join the in-flight promise, else start a fresh attempt labelled
freshId and store it as the in-flight memo. -/
def initializeAudio (s : AudioInitState) (freshId : Nat) : InitCall × AudioInitState :=
  if s.isAudioInitialized then (InitCall.memoized, s)
  else
    match s.initializationPromise with
    | some p => (InitCall.joined p, s)
    | none => (InitCall.started freshId, { s with initializationPromise := some freshId })

/-- Effect on the module state when the in-flight attempt settles: line 83
sets the success flag, line 87 clears the memo. -/
def resolveAttempt (s : AudioInitState) (o : InitOutcome) : AudioInitState :=
  let s1 := if o.setsInitializedFlag then { s with isAudioInitialized := true } else s
  if o.clearsPromise then { s1 with initializationPromise := none } else s1

/-- Trace of n successive overlapping calls of initializeAudio starting from
state s, before the in-flight attempt settles; the call made with n pending
uses fresh label n. -/
def callTrace : AudioInitState → Nat → List InitCall
  | _, 0 => []
  | s, Nat.succ n =>
      (initializeAudio s n).1 :: callTrace (initializeAudio s n).2 n

/-- Environment in which the probe getPermissionsAsync throws and everything
else is healthy. -/
def probeThrowEnv : InitEnv :=
  { expoAvAvailable := true, getPermsThrows := true, isAndroid := false
    requestPermsThrows := false, setAudioModeThrows := false }

/-- Environment in which setAudioModeAsync throws and everything else is
healthy. -/
def modeThrowEnv : InitEnv :=
  { expoAvAvailable := true, getPermsThrows := false, isAndroid := false
    requestPermsThrows := false, setAudioModeThrows := true }

end AudioInitModel

namespace SoundFilesModel

/-- Resolved asset handle, identified by the bundled file name. -/
inductive SoundAsset where
  | asset : String → SoundAsset
deriving Repr, DecidableEq

/-- Static catalog SOUND_FILES (part_007 lines 244-253): id paired with the
asset its loader thunk requires. -/
def SOUND_FILES : List (String × String) :=
  [("wn1", "white-noise.mp3"), ("wn2", "pink-noise.mp3"), ("wn3", "brown-noise.mp3"),
   ("nt1", "ocean-waves.mp3"), ("nt2", "gentle-rain.mp3")]

/-- Model of getSoundFile (part_007 lines 268-296) over the loadedSounds
cache. loaderFails id records whether the require thunk for id throws; the
inner catch at line 281 converts that throw to null, and an unknown id
returns null at line 291. The function is total: no path propagates a throw
outward. -/
def getSoundFile (loaderFails : String → Bool) (cache : List (String × SoundAsset))
    (soundId : String) : Option SoundAsset × List (String × SoundAsset) :=
  match cache.find? (fun p => p.1 == soundId) with
  | some p => (some p.2, cache)
  | none =>
    match SOUND_FILES.find? (fun p => p.1 == soundId) with
    | some entry =>
      if loaderFails soundId then (none, cache)
      else (some (SoundAsset.asset entry.2), (soundId, SoundAsset.asset entry.2) :: cache)
    | none => (none, cache)

end SoundFilesModel

namespace EnvServiceModel

/-- Interval constant of the fallback environmental service (part_009 line
5). -/
def DATA_COLLECTION_INTERVAL : Nat := 120000

/-- One entry of the log payload (part_009 lines 159-170). -/
structure LogEntry where
  parameter_id : Nat
  answer : ℚ
  normalised_answer : ℚ
deriving Repr, DecidableEq

/-- Body shape POSTed by sendDataToBackend (part_009 lines 173-176). -/
structure LogPayload where
  entries : List LogEntry
  is_auto_generated : Bool
deriving Repr, DecidableEq

/-- Payload built by sendDataToBackend: temperature as parameter 15
normalised by 100, loudness as parameter 16 normalised by 120. -/
def buildPayload (temperature loudness : ℚ) : LogPayload :=
  { entries :=
      [ { parameter_id := 15, answer := temperature, normalised_answer := temperature / 100 },
        { parameter_id := 16, answer := loudness, normalised_answer := loudness / 120 } ]
    is_auto_generated := true }

/-- Backend base URL (AuthService.API_URL, part_007 line 14). -/
def API_URL : String := "http://20.3.255.186:80"

/-- Target URL of the log POST (part_009 line 181). -/
def logsUrl (userId : Nat) : String :=
  API_URL ++ "/users/" ++ toString userId ++ "/logs"

/-- HTTP request issued by sendDataToBackend (part_009 lines 182-192). -/
structure HttpRequest where
  url : String
  httpMethod : String
  contentType : String
  payload : LogPayload
  timeoutMs : Nat
deriving Repr, DecidableEq

/-- Model of sendDataToBackend (part_009 lines 151-216): with no user id the
send is skipped (line 152); otherwise exactly one POST with JSON content
type, the two-entry payload with is_auto_generated true, and the explicit
10000 ms timeout is issued. -/
def sendDataToBackend (userId : Option Nat) (temperature loudness : ℚ) : Option HttpRequest :=
  match userId with
  | none => none
  | some uid =>
    some { url := logsUrl uid, httpMethod := "POST", contentType := "application/json"
           payload := buildPayload temperature loudness, timeoutMs := 10000 }

/-- When the underlying fetch settles relative to the start of the request:
resolved or rejected at a given millisecond, or never. -/
inductive FetchOutcome where
  | resolvedAt : Nat → FetchOutcome
  | rejectedAt : Nat → FetchOutcome
  | pending : FetchOutcome
deriving Repr, DecidableEq

/-- Result of the fetchWithTimeout wrapper as seen by its caller:
timedOutAbort n means the timer at n ms fired first, called controller.abort
and rejected with the timeout error (part_009 lines 126-129). -/
inductive WrapperResult where
  | ok : WrapperResult
  | fetchError : WrapperResult
  | timedOutAbort : Nat → WrapperResult
deriving Repr, DecidableEq

/-- Model of fetchWithTimeout (part_009 lines 122-148): whichever of the
fetch settlement and the timeout timer happens first wins; on timeout the
request is aborted and the promise rejected with the timeout error. -/
def fetchWithTimeout (timeout : Nat) (f : FetchOutcome) : WrapperResult :=
  match f with
  | FetchOutcome.resolvedAt t =>
      if t < timeout then WrapperResult.ok else WrapperResult.timedOutAbort timeout
  | FetchOutcome.rejectedAt t =>
      if t < timeout then WrapperResult.fetchError else WrapperResult.timedOutAbort timeout
  | FetchOutcome.pending => WrapperResult.timedOutAbort timeout

/-- Timer state of the service (part_009 lines 12-14). -/
structure ServiceState where
  isRunning : Bool
  timerActive : Bool
deriving Repr, DecidableEq

/-- Invocation schedule installed by startPeriodicCollection (part_009 lines
79-90): one immediate call of collectAndSendData plus a repeating timer. -/
structure Schedule where
  immediateCall : Bool
  intervalMs : Option Nat
deriving Repr, DecidableEq

/-- Model of startPeriodicCollection (part_009 lines 79-90). -/
def startPeriodicCollection (s : ServiceState) : ServiceState × Schedule :=
  ({ s with isRunning := true, timerActive := true },
   { immediateCall := true, intervalMs := some DATA_COLLECTION_INTERVAL })

/-- Invocation times induced by a schedule with an immediate call: tick k
runs at k times the interval, tick 0 being the immediate call. -/
def invocationTime (sch : Schedule) (k : Nat) : Option Nat :=
  match sch.intervalMs with
  | none => none
  | some i => if sch.immediateCall then some (k * i) else some ((k + 1) * i)

/-- Model of collectAndSendData (part_009 lines 93-107): any error of the
collection or send is caught at line 103 and logged; the timer and running
flag are untouched, so the next tick retries. -/
def collectAndSendData (sendFails : Bool) (s : ServiceState) : ServiceState :=
  let _caught := sendFails
  s

end EnvServiceModel

namespace UseAudioModel

open SoundManagerModel

/-- Model of the loadSound closure of the useAudio facade
(src/hooks/useEnvironmentalData.ts lines 122-135): when audio is not ready it
first awaits initializeAudio and returns false if that fails; otherwise it
awaits soundManager.loadSound, discards its boolean, and returns true. The
catch at line 131 is unreachable as long as the manager call settles, since
SoundManager.loadSound converts every native error to false. -/
def facadeLoadSound (isReady : Bool) (initResult : Bool) (f : Faults) (s : SMState)
    (soundId : String) (source : Option String) : Bool × SMState :=
  if isReady = false then
    if initResult = false then (false, s)
    else (true, (SoundManagerModel.loadSound f s soundId source).2)
  else (true, (SoundManagerModel.loadSound f s soundId source).2)

end UseAudioModel

namespace Examples

open SoundManagerModel

/-- Identifier used in concrete scenarios. -/
def idA : String := "a"

/-- Identifier used in concrete scenarios. -/
def idB : String := "b"

/-- Loaded handle, idle at the start. -/
def nsIdle : NativeSound :=
  { isLoaded := true, positionMillis := 0, isPlaying := false, isLooping := false }

/-- Loaded handle, currently audibly playing part-way through. -/
def nsPlaying : NativeSound :=
  { isLoaded := true, positionMillis := 500, isPlaying := true, isLooping := false }

/-- Manager state with two loaded idle sounds and nothing playing. -/
def csTwoIdle : SMState :=
  { sounds := [(idA, nsIdle), (idB, nsIdle)], currentlyPlaying := none, isAvailable := true }

/-- Manager state with sound b currently playing and sound a loaded idle. -/
def csPlayingB : SMState :=
  { sounds := [(idA, nsIdle), (idB, nsPlaying)], currentlyPlaying := some idB
    isAvailable := true }

/-- Manager state with sound a currently playing and sound b loaded idle. -/
def csPlayingA : SMState :=
  { sounds := [(idA, nsPlaying), (idB, nsIdle)], currentlyPlaying := some idA
    isAvailable := true }

/-- Fault oracle in which only getStatusAsync of sound a throws; the re-probe
still sees the bridge. -/
def cfStatusThrowsA : Faults :=
  { NoFaults with statusThrows := fun i => i == idA }

/-- Fault oracle in which only pauseAsync of sound a throws; the re-probe
still sees the bridge. -/
def cfPauseThrowsA : Faults :=
  { NoFaults with pauseThrows := fun i => i == idA }

end Examples


namespace SoundManagerModel

theorem find?_eraseKey (l : List (String × NativeSound)) (id j : String) (h : j ≠ id) :
    (eraseKey l id).find? (fun p => p.1 == j) = l.find? (fun p => p.1 == j) := by
  unfold eraseKey
  rw [List.find?_filter]
  congr 1
  funext a
  by_cases hj : a.1 = j
  · simp [hj, h]
  · simp [hj]

theorem findNS_cons_self (l : List (String × NativeSound)) (id : String) (ns : NativeSound) :
    findNS ((id, ns) :: l) id = some ns := by
  simp [findNS, List.find?_cons]

theorem findNS_cons_erase_ne (l : List (String × NativeSound)) (id j : String)
    (ns : NativeSound) (h : j ≠ id) :
    findNS ((id, ns) :: eraseKey l id) j = findNS l j := by
  have h2 : (id == j) = false := by
    simp only [beq_eq_false_iff_ne, ne_eq]
    exact fun hh => h hh.symm
  simp only [findNS]
  rw [List.find?_cons_of_neg _ (by simp [h2])]
  rw [find?_eraseKey _ _ _ h]

theorem lookupSound_setSound_self (s : SMState) (id : String) (ns : NativeSound) :
    lookupSound (setSound s id ns) id = some ns := by
  simp [lookupSound, setSound, findNS_cons_self]

theorem lookupSound_setSound_ne (s : SMState) (id j : String) (ns : NativeSound)
    (h : j ≠ id) : lookupSound (setSound s id ns) j = lookupSound s j := by
  simp [lookupSound, setSound, findNS_cons_erase_ne _ _ _ _ h]

theorem setSound_cp (s : SMState) (id : String) (ns : NativeSound) :
    (setSound s id ns).currentlyPlaying = s.currentlyPlaying := rfl

theorem setSound_avail (s : SMState) (id : String) (ns : NativeSound) :
    (setSound s id ns).isAvailable = s.isAvailable := rfl

theorem stopSound_avail (f : Faults) (s : SMState) (id : String) :
    (stopSound f s id).isAvailable = s.isAvailable ∨
    (stopSound f s id).isAvailable = f.reprobe := by
  simp only [stopSound]
  split
  · exact Or.inl rfl
  · split
    · exact Or.inl rfl
    · split
      · split <;> exact Or.inr rfl
      · split <;> exact Or.inl rfl

theorem stopSound_cp (f : Faults) (s : SMState) (id : String) :
    (stopSound f s id).currentlyPlaying = s.currentlyPlaying ∨
    (stopSound f s id).currentlyPlaying = none := by
  simp only [stopSound]
  split
  · exact Or.inl rfl
  · split
    · exact Or.inl rfl
    · split
      · split
        · exact Or.inr rfl
        · exact Or.inl rfl
      · split
        · exact Or.inr rfl
        · exact Or.inl rfl

theorem stopSound_clears (f : Faults) (s : SMState) (id : String) (ns : NativeSound)
    (hav : s.isAvailable = true) (hl : lookupSound s id = some ns)
    (hcp : s.currentlyPlaying = some id) :
    (stopSound f s id).currentlyPlaying = none ∧
    (f.stopThrows id = false →
      lookupSound (stopSound f s id) id = some { ns with isPlaying := false }) := by
  constructor
  · simp only [stopSound, hav, hl]
    rw [if_neg (by simp)]
    split
    · simp [hcp]
    · simp [setSound, hcp]
  · intro hnf
    simp only [stopSound, hav, hl, hnf]
    rw [if_neg (by simp)]
    simp [setSound, hcp, lookupSound, findNS_cons_self]

theorem lookupSound_setSound_cp_self (s : SMState) (id : String) (ns : NativeSound)
    (c : Option String) :
    lookupSound { setSound s id ns with currentlyPlaying := c } id = some ns := by
  simp [lookupSound, setSound, findNS_cons_self]

theorem stopSound_lookup_ne (f : Faults) (s : SMState) (id j : String) (h : j ≠ id) :
    lookupSound (stopSound f s id) j = lookupSound s j := by
  by_cases h1 : s.isAvailable = false <;>
  rcases h2 : findNS s.sounds id with _ | ns <;>
  by_cases h3 : f.stopThrows id = true <;>
  by_cases h4 : s.currentlyPlaying = some id <;>
  simp [stopSound, h1, h2, h3, h4, lookupSound, setSound,
    findNS_cons_erase_ne _ _ _ _ h]

theorem stopSound_cp_of_ne (f : Faults) (s : SMState) (id : String)
    (h : s.currentlyPlaying ≠ some id) :
    (stopSound f s id).currentlyPlaying = s.currentlyPlaying := by
  by_cases h1 : s.isAvailable = false <;>
  rcases h2 : findNS s.sounds id with _ | ns <;>
  by_cases h3 : f.stopThrows id = true <;>
  simp [stopSound, h1, h2, h3, lookupSound, setSound, h]

theorem setSound_setSound (s : SMState) (id : String) (ns1 ns2 : NativeSound) :
    setSound (setSound s id ns1) id ns2 = setSound s id ns2 := by
  simp [setSound, eraseKey, List.filter_cons, List.filter_filter, Bool.and_self]

theorem consistent_lookup (s : SMState) (j : String) (ns : NativeSound)
    (hc : playingConsistent s) (hl : lookupSound s j = some ns) :
    (ns.isPlaying = true ↔ s.currentlyPlaying = some j) := by
  simp only [lookupSound, findNS] at hl
  cases hfind : s.sounds.find? (fun p => p.1 == j) with
  | none => simp [hfind] at hl
  | some p =>
    simp only [hfind, Option.map_some'] at hl
    have hmem := List.mem_of_find?_eq_some hfind
    have hpred := List.find?_some hfind
    have hkey : p.1 = j := by simpa using hpred
    have hiff := hc p hmem
    rw [hkey] at hiff
    rw [Option.some.injEq] at hl
    rw [hl] at hiff
    exact hiff

theorem playStart_false_state (f : Faults) (s : SMState) (id : String) (ns : NativeSound)
    (lp : Bool) (h : (playStart f s id ns lp).1 = false) :
    (playStart f s id ns lp).2.currentlyPlaying = s.currentlyPlaying ∧
    (playStart f s id ns lp).2.isAvailable = s.isAvailable := by
  by_cases h1 : f.setLoopingThrows id = true
  · simp [playStart, h1]
  · by_cases h2 : f.playThrows id = true
    · simp [playStart, h1, h2, setSound_cp, setSound_avail]
    · simp [playStart, h1, h2] at h

theorem playStart_true_inv (f : Faults) (s : SMState) (id : String) (ns : NativeSound)
    (lp : Bool) (h : (playStart f s id ns lp).1 = true) :
    (playStart f s id ns lp).2 =
      { setSound s id { ns with isLooping := lp, isPlaying := true } with
          currentlyPlaying := some id } := by
  by_cases h1 : f.setLoopingThrows id = true
  · simp [playStart, h1] at h
  · by_cases h2 : f.playThrows id = true
    · simp [playStart, h1, h2] at h
    · simp [playStart, h1, h2, setSound_setSound]

theorem playAttempt_noFaults (s : SMState) (id : String) (ns : NativeSound) (lp : Bool)
    (hL : ns.isLoaded = true) :
    playAttempt NoFaults s id ns lp =
      (true, { setSound s id { ns with positionMillis := 0, isLooping := lp, isPlaying := true }
                 with currentlyPlaying := some id }) := by
  by_cases hp : 0 < ns.positionMillis
  · simp [playAttempt, playStart, NoFaults, hL, hp, setSound_setSound]
  · have hp0 : ns.positionMillis = 0 := by omega
    simp [playAttempt, playStart, NoFaults, hL, hp, hp0, setSound_setSound]

theorem playAttempt_false_cp (f : Faults) (s : SMState) (id : String) (ns : NativeSound)
    (lp : Bool) (h : (playAttempt f s id ns lp).1 = false) :
    (playAttempt f s id ns lp).2.currentlyPlaying = s.currentlyPlaying := by
  by_cases h1 : f.statusThrows id = true
  · simp [playAttempt, h1]
  · by_cases h2 : ns.isLoaded = false
    · simp [playAttempt, h1, h2]
    · by_cases h3 : 0 < ns.positionMillis
      · by_cases h4 : f.setPositionThrows id = true
        · simp [playAttempt, h1, h2, h3, h4]
        · simp only [playAttempt, h1, h2, h3, h4] at h ⊢
          simp at h ⊢
          exact ((playStart_false_state _ _ _ _ _ h).1).trans (setSound_cp _ _ _)
      · simp only [playAttempt, h1, h2, h3] at h ⊢
        simp at h ⊢
        exact (playStart_false_state _ _ _ _ _ h).1

theorem playAttempt_true_inv (f : Faults) (s : SMState) (id : String) (ns : NativeSound)
    (lp : Bool) (h : (playAttempt f s id ns lp).1 = true) :
    (playAttempt f s id ns lp).2.currentlyPlaying = some id ∧
    (playAttempt f s id ns lp).2.isAvailable = s.isAvailable ∧
    ∃ nsf, lookupSound (playAttempt f s id ns lp).2 id = some nsf := by
  by_cases h1 : f.statusThrows id = true
  · simp [playAttempt, h1] at h
  · by_cases h2 : ns.isLoaded = false
    · simp [playAttempt, h1, h2] at h
    · by_cases h3 : 0 < ns.positionMillis
      · by_cases h4 : f.setPositionThrows id = true
        · simp [playAttempt, h1, h2, h3, h4] at h
        · simp only [playAttempt, h1, h2, h3, h4] at h ⊢
          simp at h ⊢
          rw [playStart_true_inv _ _ _ _ _ h]
          exact ⟨rfl, by simp [setSound_avail], ⟨_, lookupSound_setSound_cp_self _ _ _ _⟩⟩
      · simp only [playAttempt, h1, h2, h3] at h ⊢
        simp at h ⊢
        rw [playStart_true_inv _ _ _ _ _ h]
        exact ⟨rfl, by simp [setSound_avail], ⟨_, lookupSound_setSound_cp_self _ _ _ _⟩⟩

theorem stopSound_not_found (f : Faults) (s : SMState) (id : String)
    (hl : lookupSound s id = none) : stopSound f s id = s := by
  by_cases h1 : s.isAvailable = false <;>
  simp [stopSound, h1, hl]

theorem stopSound_noFaults_lookup_self (s : SMState) (id : String) (ns : NativeSound)
    (hav : s.isAvailable = true) (hl : lookupSound s id = some ns) :
    lookupSound (stopSound NoFaults s id) id = some { ns with isPlaying := false } := by
  by_cases h4 : s.currentlyPlaying = some id <;>
  simp [stopSound, hav, NoFaults, h4, lookupSound, setSound, findNS_cons_self,
    show findNS s.sounds id = some ns from hl]

theorem stopSound_noFaults_avail (s : SMState) (id : String) (hav : s.isAvailable = true) :
    (stopSound NoFaults s id).isAvailable = true := by
  rcases stopSound_avail NoFaults s id with h | h
  · rw [h, hav]
  · rw [h]
    rfl

theorem lookupSound_setSound_cp_ne (s : SMState) (id j : String) (ns : NativeSound)
    (c : Option String) (h : j ≠ id) :
    lookupSound { setSound s id ns with currentlyPlaying := c } j = lookupSound s j := by
  simp [lookupSound, setSound, findNS_cons_erase_ne _ _ _ _ h]

theorem playSound_noFaults_success (s : SMState) (id : String) (ns : NativeSound) (lp : Bool)
    (hav : s.isAvailable = true) (hl : lookupSound s id = some ns) (hL : ns.isLoaded = true)
    (hcp : s.currentlyPlaying ≠ some id) :
    (playSound NoFaults s id lp).1 = true ∧
    (playSound NoFaults s id lp).2.currentlyPlaying = some id ∧
    (playSound NoFaults s id lp).2.isAvailable = true ∧
    lookupSound (playSound NoFaults s id lp).2 id =
      some { ns with positionMillis := 0, isLooping := lp, isPlaying := true } ∧
    ∀ j, j ≠ id → lookupSound (playSound NoFaults s id lp).2 j =
      (lookupSound s j).map (fun ns0 =>
        if s.currentlyPlaying = some j then { ns0 with isPlaying := false } else ns0) := by
  rcases h4 : s.currentlyPlaying with _ | other
  · simp only [playSound, hav, hl, h4]
    rw [if_neg (by simp), if_neg (by simp)]
    rw [playAttempt_noFaults s id ns lp hL]
    refine ⟨rfl, rfl, by simpa [setSound_avail] using hav,
      lookupSound_setSound_cp_self _ _ _ _, ?_⟩
    intro j hj
    rw [lookupSound_setSound_cp_ne _ _ _ _ _ hj]
    cases lookupSound s j <;> simp
  · have hoth : other ≠ id := by
      intro hh
      rw [hh] at h4
      exact hcp h4
    have hs1av : (stopSound NoFaults s other).isAvailable = true :=
      stopSound_noFaults_avail s other hav
    simp only [playSound, hav, hl, h4]
    rw [if_neg (by simp), if_neg (by simp [hoth]), if_neg hoth]
    rw [playAttempt_noFaults _ id ns lp hL]
    refine ⟨rfl, rfl, by simpa [setSound_avail] using hs1av,
      lookupSound_setSound_cp_self _ _ _ _, ?_⟩
    intro j hj
    rw [lookupSound_setSound_cp_ne _ _ _ _ _ hj]
    by_cases hj2 : j = other
    · rw [hj2]
      cases hlo : lookupSound s other with
      | none =>
        rw [stopSound_not_found NoFaults s other hlo, hlo]
        rfl
      | some nso =>
        rw [stopSound_noFaults_lookup_self s other nso hav hlo]
        simp
    · rw [stopSound_lookup_ne NoFaults s other j (by exact hj2)]
      have hne : other ≠ j := fun hh => hj2 hh.symm
      cases lookupSound s j <;> simp [hne]

theorem playSound_true_inv (f : Faults) (s : SMState) (id : String) (lp : Bool)
    (hre : f.reprobe = true) (h : (playSound f s id lp).1 = true) :
    (playSound f s id lp).2.currentlyPlaying = some id ∧
    (playSound f s id lp).2.isAvailable = true ∧
    ∃ nsf, lookupSound (playSound f s id lp).2 id = some nsf := by
  by_cases h1 : s.isAvailable = false
  · simp [playSound, h1] at h
  · have hav : s.isAvailable = true := by
      revert h1
      cases s.isAvailable <;> simp
    by_cases h2 : s.currentlyPlaying = some id
    · simp [playSound, h1, h2] at h
    · rcases h3 : lookupSound s id with _ | ns
      · simp [playSound, h1, h2, h3] at h
      · rcases h4 : s.currentlyPlaying with _ | other
        · simp only [playSound, hav, h3, h4] at h ⊢
          rw [if_neg (by simp), if_neg (by simp)] at h ⊢
          rcases playAttempt_true_inv f s id ns lp h with ⟨hc1, hc2, hc3⟩
          exact ⟨hc1, hc2.trans hav, hc3⟩
        · have hoth : other ≠ id := by
            intro hh
            rw [hh] at h4
            exact h2 h4
          have hs1av : (stopSound f s other).isAvailable = true := by
            rcases stopSound_avail f s other with hh | hh
            · rw [hh, hav]
            · rw [hh, hre]
          simp only [playSound, hav, h3, h4] at h ⊢
          rw [if_neg (by simp), if_neg (by simp [hoth]), if_neg hoth] at h ⊢
          rcases playAttempt_true_inv f (stopSound f s other) id ns lp h with ⟨hc1, hc2, hc3⟩
          exact ⟨hc1, hc2.trans hs1av, hc3⟩

end SoundManagerModel

namespace SoundManagerModel

theorem playSound_toggle (f : Faults) (s : SMState) (id : String) (lp : Bool)
    (hav : s.isAvailable = true) (hcp : s.currentlyPlaying = some id) :
    playSound f s id lp = (false, stopSound f s id) := by
  simp only [playSound, hav, hcp]
  simp

theorem playSound_false_cp (f : Faults) (s : SMState) (id : String) (lp : Bool)
    (hcp : s.currentlyPlaying ≠ some id) (h : (playSound f s id lp).1 = false) :
    (playSound f s id lp).2.currentlyPlaying = s.currentlyPlaying ∨
    (playSound f s id lp).2.currentlyPlaying = none := by
  by_cases h1 : s.isAvailable = false
  · simp [playSound, h1]
  · rcases h3 : lookupSound s id with _ | ns
    · simp [playSound, h1, h3, hcp]
    · rcases h4 : s.currentlyPlaying with _ | other
      · simp only [playSound, h1, h3, h4] at h ⊢
        rw [if_neg (by simp), if_neg (by simp)] at h ⊢
        rw [playAttempt_false_cp _ _ _ _ _ h, h4]
        exact Or.inl rfl
      · have hoth : other ≠ id := by
          intro hh
          rw [hh] at h4
          exact hcp h4
        simp only [playSound, h1, h3, h4] at h ⊢
        rw [if_neg (by simp), if_neg (by simp [hoth]), if_neg hoth] at h ⊢
        rw [playAttempt_false_cp _ _ _ _ _ h]
        rcases stopSound_cp f s other with hh | hh
        · rw [hh, h4]
          exact Or.inl rfl
        · rw [hh]
          exact Or.inr rfl

theorem playSound_noFaults_success_stopped (s : SMState) (id : String) (ns : NativeSound)
    (lp : Bool) (hav : s.isAvailable = true) (hl : lookupSound s id = some ns)
    (hL : ns.isLoaded = true) (hcp : s.currentlyPlaying ≠ some id)
    (hlc : ∀ j nsj, lookupSound s j = some nsj →
      (nsj.isPlaying = true ↔ s.currentlyPlaying = some j)) :
    ∀ j nsj, j ≠ id → lookupSound (playSound NoFaults s id lp).2 j = some nsj →
      nsj.isPlaying = false := by
  obtain ⟨-, -, -, -, htr⟩ := playSound_noFaults_success s id ns lp hav hl hL hcp
  intro j nsj hj hjl
  rw [htr j hj] at hjl
  cases hsj : lookupSound s j with
  | none =>
    rw [hsj] at hjl
    simp at hjl
  | some ns0 =>
    rw [hsj] at hjl
    by_cases hc : s.currentlyPlaying = some j
    · simp [hc] at hjl
      rw [← hjl]
    · simp [hc] at hjl
      have := (hlc j ns0 hsj)
      rw [hjl] at this
      rcases hb : nsj.isPlaying with _ | _
      · rfl
      · exact absurd (this.mp hb) hc

theorem stopSound_toggle_stopped (s : SMState) (id : String) (ns : NativeSound)
    (hav : s.isAvailable = true) (hl : lookupSound s id = some ns)
    (hcp : s.currentlyPlaying = some id)
    (hlc : ∀ j nsj, lookupSound s j = some nsj →
      (nsj.isPlaying = true ↔ s.currentlyPlaying = some j)) :
    ∀ j nsj, lookupSound (stopSound NoFaults s id) j = some nsj →
      nsj.isPlaying = false := by
  intro j nsj hjl
  by_cases hj : j = id
  · rw [hj, stopSound_noFaults_lookup_self s id ns hav hl] at hjl
    rw [Option.some.injEq] at hjl
    rw [← hjl]
  · rw [stopSound_lookup_ne NoFaults s id j hj] at hjl
    have hiff := hlc j nsj hjl
    rcases hb : nsj.isPlaying with _ | _
    · rfl
    · have := hiff.mp hb
      rw [hcp] at this
      rw [Option.some.injEq] at this
      exact absurd this.symm hj

end SoundManagerModel

namespace SoundManagerModel

theorem noFaultsStatusThrows (id : String) : NoFaults.statusThrows id = false := rfl

theorem mutual_exclusion_core (s : SMState) (A B : String) (nsA nsB : NativeSound)
    (lpA lpB : Bool) (hAB : A ≠ B)
    (hA : lookupSound s A = some nsA) (hAL : nsA.isLoaded = true)
    (hB : lookupSound s B = some nsB) (hBL : nsB.isLoaded = true)
    (hav : s.isAvailable = true) (hcons : playingConsistent s) :
    (getPlaybackStatus NoFaults (playSound NoFaults (playSound NoFaults s A lpA).2 B lpB).2 A).1
      = some false ∧
    (∀ X nsX, X ≠ B →
      lookupSound (playSound NoFaults (playSound NoFaults s A lpA).2 B lpB).2 X = some nsX →
      nsX.isPlaying = false) := by
  have hlc : ∀ j nsj, lookupSound s j = some nsj →
      (nsj.isPlaying = true ↔ s.currentlyPlaying = some j) :=
    fun j nsj hj => consistent_lookup s j nsj hcons hj
  have hBA : B ≠ A := fun hh => hAB hh.symm
  by_cases hcpA : s.currentlyPlaying = some A
  · have htog := playSound_toggle NoFaults s A lpA hav hcpA
    have hfix : (playSound NoFaults s A lpA).2 = stopSound NoFaults s A := by rw [htog]
    rw [hfix]
    have hs1av : (stopSound NoFaults s A).isAvailable = true := stopSound_noFaults_avail s A hav
    have hs1B : lookupSound (stopSound NoFaults s A) B = some nsB := by
      rw [stopSound_lookup_ne NoFaults s A B hBA]
      exact hB
    have hs1cp : (stopSound NoFaults s A).currentlyPlaying = none :=
      (stopSound_clears NoFaults s A nsA hav hA hcpA).1
    have hs1A : lookupSound (stopSound NoFaults s A) A = some { nsA with isPlaying := false } :=
      stopSound_noFaults_lookup_self s A nsA hav hA
    have hs1stopped := stopSound_toggle_stopped s A nsA hav hA hcpA hlc
    have hs1lc : ∀ j nsj, lookupSound (stopSound NoFaults s A) j = some nsj →
        (nsj.isPlaying = true ↔ (stopSound NoFaults s A).currentlyPlaying = some j) := by
      intro j nsj hj
      rw [hs1cp]
      simp [hs1stopped j nsj hj]
    have hcpB1 : (stopSound NoFaults s A).currentlyPlaying ≠ some B := by
      rw [hs1cp]
      simp
    obtain ⟨hr2, h2cp, h2av, h2B, h2tr⟩ :=
      playSound_noFaults_success (stopSound NoFaults s A) B nsB lpB hs1av hs1B hBL hcpB1
    have h2stopped := playSound_noFaults_success_stopped (stopSound NoFaults s A) B nsB lpB
      hs1av hs1B hBL hcpB1 hs1lc
    constructor
    · have h2A : lookupSound (playSound NoFaults (stopSound NoFaults s A) B lpB).2 A =
          some { nsA with isPlaying := false } := by
        rw [h2tr A hAB, hs1A, hs1cp]
        simp
      simp [getPlaybackStatus, h2av, h2A, noFaultsStatusThrows, hAL]
    · intro X nsX hXB hlX
      exact h2stopped X nsX hXB hlX
  · obtain ⟨hr1, h1cp, h1av, h1A, h1tr⟩ := playSound_noFaults_success s A nsA lpA hav hA hAL hcpA
    have h1stopped := playSound_noFaults_success_stopped s A nsA lpA hav hA hAL hcpA hlc
    have hs1B : ∃ nsB1, lookupSound (playSound NoFaults s A lpA).2 B = some nsB1 ∧
        nsB1.isLoaded = true := by
      rw [h1tr B hBA, hB]
      by_cases hc0 : s.currentlyPlaying = some B
      · refine ⟨{ nsB with isPlaying := false }, ?_, ?_⟩
        · simp [hc0]
        · simp [hBL]
      · refine ⟨nsB, ?_, hBL⟩
        simp [hc0]
    obtain ⟨nsB1, hs1B1, hs1B1L⟩ := hs1B
    have hcpB1 : (playSound NoFaults s A lpA).2.currentlyPlaying ≠ some B := by
      rw [h1cp]
      simp [hAB]
    have hs1lc : ∀ j nsj, lookupSound (playSound NoFaults s A lpA).2 j = some nsj →
        (nsj.isPlaying = true ↔ (playSound NoFaults s A lpA).2.currentlyPlaying = some j) := by
      intro j nsj hj
      by_cases hjA : j = A
      · rw [hjA] at hj ⊢
        rw [h1A] at hj
        rw [Option.some.injEq] at hj
        rw [← hj, h1cp]
        simp
      · rw [h1cp]
        have hstp := h1stopped j nsj hjA hj
        have hAj : A ≠ j := fun hh => hjA hh.symm
        simp [hstp, hAj]
    obtain ⟨hr2, h2cp, h2av, h2B, h2tr⟩ :=
      playSound_noFaults_success (playSound NoFaults s A lpA).2 B nsB1 lpB h1av hs1B1 hs1B1L hcpB1
    have h2stopped := playSound_noFaults_success_stopped (playSound NoFaults s A lpA).2 B nsB1 lpB
      h1av hs1B1 hs1B1L hcpB1 hs1lc
    constructor
    · have h2A : lookupSound (playSound NoFaults (playSound NoFaults s A lpA).2 B lpB).2 A =
          some { nsA with positionMillis := 0, isLooping := lpA, isPlaying := false } := by
        rw [h2tr A hAB, h1A, h1cp]
        simp
      simp [getPlaybackStatus, h2av, h2A, noFaultsStatusThrows, hAL]
    · intro X nsX hXB hlX
      exact h2stopped X nsX hXB hlX

end SoundManagerModel

namespace SoundManagerModel

theorem pauseSound_clears_on_success (f : Faults) (s : SMState) (id : String) (ns : NativeSound)
    (hav : s.isAvailable = true) (hl : lookupSound s id = some ns)
    (hcp : s.currentlyPlaying = some id) (hnf : f.pauseThrows id = false) :
    (pauseSound f s id).currentlyPlaying = none := by
  simp [pauseSound, hav, hl, hnf, setSound_cp, hcp]

theorem pauseSound_throw_keeps (f : Faults) (s : SMState) (id : String) (ns : NativeSound)
    (hav : s.isAvailable = true) (hl : lookupSound s id = some ns)
    (hthrow : f.pauseThrows id = true) :
    (pauseSound f s id).currentlyPlaying = s.currentlyPlaying := by
  simp [pauseSound, hav, hl, hthrow]

end SoundManagerModel

open SoundManagerModel Examples

/-- C1: Mutual exclusion of playback: for every pair of distinct ids A and B
with both sounds loaded, in a fault-free native environment and from an
available, bookkeeping-consistent manager state, after playSound A then
playSound B resolve the currentlyPlaying slot holds at most one id,
getPlaybackStatus A reports isPlaying false, and at most B is playing (every
loaded sound other than B has a false native playing flag), because
playSound B stops A before starting B. -/
theorem mutual_exclusion_playback (s : SMState) (A B : String) (nsA nsB : NativeSound)
    (lpA lpB : Bool) (hAB : A ≠ B)
    (hA : lookupSound s A = some nsA) (hAL : nsA.isLoaded = true)
    (hB : lookupSound s B = some nsB) (hBL : nsB.isLoaded = true)
    (hav : s.isAvailable = true) (hcons : playingConsistent s) :
    (∀ x y,
      (playSound NoFaults (playSound NoFaults s A lpA).2 B lpB).2.currentlyPlaying = some x →
      (playSound NoFaults (playSound NoFaults s A lpA).2 B lpB).2.currentlyPlaying = some y →
      x = y) ∧
    (getPlaybackStatus NoFaults (playSound NoFaults (playSound NoFaults s A lpA).2 B lpB).2 A).1
      = some false ∧
    (∀ X nsX, X ≠ B →
      lookupSound (playSound NoFaults (playSound NoFaults s A lpA).2 B lpB).2 X = some nsX →
      nsX.isPlaying = false) := by
  obtain ⟨hstat, hstop⟩ := mutual_exclusion_core s A B nsA nsB lpA lpB hAB hA hAL hB hBL hav hcons
  exact ⟨fun x y hx hy => Option.some.inj (hx.symm.trans hy), hstat, hstop⟩

/-- Witness for C1 at a concrete state with two loaded idle sounds. -/
theorem mutual_exclusion_playback_witness :
    (getPlaybackStatus NoFaults
      (playSound NoFaults (playSound NoFaults csTwoIdle idA true).2 idB false).2 idA).1
      = some false :=
  (mutual_exclusion_playback csTwoIdle idA idB nsIdle nsIdle true false (by decide) (by decide)
    (by decide) (by decide) (by decide) (by decide) (by decide)).2.1

/-- C2: Toggle law: if playSound A returned true, a second playSound A with no
intervening stop hits the toggle branch: it returns false, clears the
currently-playing slot through stopSound, and when the native stop call does
not throw the handle of A is left natively stopped. -/
theorem toggle_law_playSound (f1 f2 : Faults) (s : SMState) (A : String) (lp1 lp2 : Bool)
    (hre : f1.reprobe = true) (h1 : (playSound f1 s A lp1).1 = true) :
    (playSound f2 (playSound f1 s A lp1).2 A lp2).1 = false ∧
    (playSound f2 (playSound f1 s A lp1).2 A lp2).2.currentlyPlaying = none ∧
    (f2.stopThrows A = false →
      ∃ ns, lookupSound (playSound f2 (playSound f1 s A lp1).2 A lp2).2 A = some ns ∧
        ns.isPlaying = false) := by
  obtain ⟨hcp1, hav1, nsf, hlf⟩ := playSound_true_inv f1 s A lp1 hre h1
  have htog := playSound_toggle f2 (playSound f1 s A lp1).2 A lp2 hav1 hcp1
  have hfix : (playSound f2 (playSound f1 s A lp1).2 A lp2).2 =
      stopSound f2 (playSound f1 s A lp1).2 A := by rw [htog]
  have hfst : (playSound f2 (playSound f1 s A lp1).2 A lp2).1 = false := by rw [htog]
  obtain ⟨hclr, hstop⟩ := stopSound_clears f2 (playSound f1 s A lp1).2 A nsf hav1 hlf hcp1
  refine ⟨hfst, ?_, ?_⟩
  · rw [hfix]
    exact hclr
  · intro hnf
    rw [hfix]
    exact ⟨_, hstop hnf, rfl⟩

/-- Witness for C2 at a concrete state: play a, play a again, slot cleared. -/
theorem toggle_law_playSound_witness :
    (playSound NoFaults (playSound NoFaults csTwoIdle idA true).2 idA true).2.currentlyPlaying
      = none :=
  (toggle_law_playSound NoFaults NoFaults csTwoIdle idA true true (by decide) (by decide)).2.1

/-- C4 counterexample: the claim says a non-toggle false return of playSound
leaves state unchanged; here playSound of a (with sound b playing and the
getStatusAsync call for a throwing) returns false, yet sound b has already
been stopped and the currently-playing slot cleared. -/
theorem playSound_failure_alters_state_cex :
    csPlayingB.currentlyPlaying = some idB ∧
    csPlayingB.currentlyPlaying ≠ some idA ∧
    (playSound cfStatusThrowsA csPlayingB idA false).1 = false ∧
    (playSound cfStatusThrowsA csPlayingB idA false).2.currentlyPlaying = none ∧
    lookupSound (playSound cfStatusThrowsA csPlayingB idA false).2 idB =
      some { nsPlaying with isPlaying := false } := by decide

/-- C4 (amended): when playSound returns false for a reason other than the
toggle case, it never sets currentlyPlaying to the requested id — no partial
playing flag — and the slot is either unchanged or cleared; however a
previously playing sound may already have been stopped before the failure, so
the whole state is not necessarily unchanged. -/
theorem playSound_failure_no_partial_flag (f : Faults) (s : SMState) (id : String) (lp : Bool)
    (hcp : s.currentlyPlaying ≠ some id) (h : (playSound f s id lp).1 = false) :
    (playSound f s id lp).2.currentlyPlaying ≠ some id ∧
    ((playSound f s id lp).2.currentlyPlaying = s.currentlyPlaying ∨
      (playSound f s id lp).2.currentlyPlaying = none) := by
  have hd := playSound_false_cp f s id lp hcp h
  refine ⟨?_, hd⟩
  rcases hd with hh | hh
  · rw [hh]
    exact hcp
  · rw [hh]
    simp

/-- Witness for the amended C4 at the concrete failing input. -/
theorem playSound_failure_no_partial_flag_witness :
    (playSound cfStatusThrowsA csPlayingB idA false).2.currentlyPlaying ≠ some idA :=
  (playSound_failure_no_partial_flag cfStatusThrowsA csPlayingB idA false (by decide)
    (by decide)).1

/-- C5 counterexample: the claim says both pauseSound and stopSound clear the
playing-id bookkeeping even when the native call throws; for pauseSound with
a throwing pauseAsync the currently playing id stays set. -/
theorem pauseSound_error_keeps_playing_id_cex :
    csPlayingA.currentlyPlaying = some idA ∧
    (pauseSound cfPauseThrowsA csPlayingA idA).currentlyPlaying = some idA := by decide

/-- C5 (amended): for a loaded, currently playing id on an available bridge,
stopSound clears the currently-playing slot even when the native stop throws;
pauseSound clears it only when the native pause succeeds, and on a pauseAsync
exception the playing id remains set. -/
theorem pause_stop_clear_amended (f : Faults) (s : SMState) (id : String) (ns : NativeSound)
    (hav : s.isAvailable = true) (hl : lookupSound s id = some ns)
    (hcp : s.currentlyPlaying = some id) :
    (stopSound f s id).currentlyPlaying = none ∧
    (f.pauseThrows id = false → (pauseSound f s id).currentlyPlaying = none) ∧
    (f.pauseThrows id = true → (pauseSound f s id).currentlyPlaying = some id) := by
  refine ⟨(stopSound_clears f s id ns hav hl hcp).1, ?_, ?_⟩
  · intro hnf
    exact pauseSound_clears_on_success f s id ns hav hl hcp hnf
  · intro hthrow
    rw [pauseSound_throw_keeps f s id ns hav hl hthrow]
    exact hcp

/-- Witness for the amended C5 at a concrete state. -/
theorem pause_stop_clear_amended_witness :
    (stopSound cfPauseThrowsA csPlayingA idA).currentlyPlaying = none :=
  (pause_stop_clear_amended cfPauseThrowsA csPlayingA idA nsPlaying (by decide) (by decide)
    (by decide)).1

namespace SoundManagerModel

theorem findNS_erase_self (l : List (String × NativeSound)) (id : String) :
    findNS (eraseKey l id) id = none := by
  simp only [findNS, eraseKey, Option.map_eq_none']
  rw [List.find?_eq_none]
  intro x hx
  simp only [List.mem_filter, bne_iff_ne, ne_eq] at hx
  simp [hx.2]

end SoundManagerModel

namespace AudioInitModel

theorem callTrace_joined (n : Nat) (s : AudioInitState) (p : Nat)
    (hinit : s.isAudioInitialized = false) (hprom : s.initializationPromise = some p) :
    callTrace s n = List.replicate n (InitCall.joined p) := by
  induction n with
  | zero => rfl
  | succ n ih =>
    have hstep : initializeAudio s n = (InitCall.joined p, s) := by
      simp [initializeAudio, hinit, hprom]
    simp [callTrace, hstep, ih, List.replicate_succ]

theorem initAttempt_success_sets (e : InitEnv) (h : (initAttempt e).result = true) :
    (initAttempt e).setsInitializedFlag = true ∧ (initAttempt e).clearsPromise = false := by
  by_cases h1 : e.expoAvAvailable = false <;>
  by_cases h2 : e.getPermsThrows = true <;>
  by_cases h3 : e.setAudioModeThrows = true <;>
  simp [initAttempt, h1, h2, h3] at h ⊢

end AudioInitModel

open AudioInitModel

/-- C3 counterexample: an exception thrown by the availability probe
(getPermissionsAsync) is caught by the inner catch of the initializer: the
call resolves false but the in-flight memo is NOT cleared, so a subsequent
initializeAudio call joins the stale resolved-false promise instead of
starting a fresh attempt — failure is memoized, contradicting the claim. -/
theorem init_probe_failure_memoized_cex :
    (initAttempt probeThrowEnv).result = false ∧
    (initAttempt probeThrowEnv).clearsPromise = false ∧
    (initializeAudio
      (resolveAttempt { isAudioInitialized := false, initializationPromise := some 0 }
        (initAttempt probeThrowEnv)) 1).1 = InitCall.joined 0 := by decide

/-- C3 (amended): with the native module present, only an exception that
escapes to the outer catch — one thrown by the audio-mode configuration —
resolves false and clears the in-flight memo so a later call retries; an
exception from the availability probe is caught internally and resolves false
while leaving the memo set (the failed result stays memoized); an exception
from the Android permission request is swallowed and initialization continues
and succeeds. -/
theorem init_failure_memo_amended (e : InitEnv) (hmod : e.expoAvAvailable = true) :
    (e.getPermsThrows = true →
      initAttempt e = { result := false, setsInitializedFlag := false, clearsPromise := false }) ∧
    (e.getPermsThrows = false → e.setAudioModeThrows = true →
      initAttempt e = { result := false, setsInitializedFlag := false, clearsPromise := true }) ∧
    (e.getPermsThrows = false → e.setAudioModeThrows = false →
      initAttempt e = { result := true, setsInitializedFlag := true, clearsPromise := false }) := by
  refine ⟨?_, ?_, ?_⟩ <;> intros <;> simp [initAttempt, hmod, *]

/-- Witness for the amended C3: a setAudioModeAsync exception resolves false
and clears the memo. -/
theorem init_failure_memo_amended_witness :
    initAttempt modeThrowEnv =
      { result := false, setsInitializedFlag := false, clearsPromise := true } :=
  (init_failure_memo_amended modeThrowEnv (by decide)).2.1 (by decide) (by decide)

/-- C6: Initialization request de-duplication and idempotent success: from a
fresh module state, the first of n + 1 overlapping initializeAudio calls
starts the single underlying attempt and every later overlapping call joins
that same pending promise; once the module state records success, every call
returns the memoized result without touching the state; and a successful
attempt sets the success flag when it resolves. -/
theorem initializeAudio_dedup_idempotent :
    (∀ n : Nat, callTrace { isAudioInitialized := false, initializationPromise := none } (n + 1) =
      InitCall.started n :: List.replicate n (InitCall.joined n)) ∧
    (∀ s : AudioInitState, ∀ q : Nat, s.isAudioInitialized = true →
      initializeAudio s q = (InitCall.memoized, s)) ∧
    (∀ s : AudioInitState, ∀ e : InitEnv, (initAttempt e).result = true →
      (resolveAttempt s (initAttempt e)).isAudioInitialized = true) := by
  refine ⟨?_, ?_, ?_⟩
  · intro n
    have hfirst : initializeAudio { isAudioInitialized := false, initializationPromise := none } n
        = (InitCall.started n,
           { isAudioInitialized := false, initializationPromise := some n }) := by
      simp [initializeAudio]
    have hjoin := callTrace_joined n
      { isAudioInitialized := false, initializationPromise := some n } n rfl rfl
    simp [callTrace, hfirst, hjoin]
  · intro s q hs
    simp [initializeAudio, hs]
  · intro s e hres
    obtain ⟨hset, hclear⟩ := initAttempt_success_sets e hres
    simp [resolveAttempt, hset, hclear]

/-- Witness for C6: three overlapping calls produce one started attempt and
two joins of the same promise; a memoized call returns immediately; a
successful resolution sets the flag. -/
theorem initializeAudio_dedup_idempotent_witness :
    (callTrace { isAudioInitialized := false, initializationPromise := none } 3 =
      [InitCall.started 2, InitCall.joined 2, InitCall.joined 2]) ∧
    (initializeAudio { isAudioInitialized := true, initializationPromise := none } 5 =
      (InitCall.memoized, { isAudioInitialized := true, initializationPromise := none })) ∧
    (resolveAttempt { isAudioInitialized := false, initializationPromise := some 7 }
      (initAttempt { expoAvAvailable := true, getPermsThrows := false, isAndroid := false
                     requestPermsThrows := false, setAudioModeThrows := false })).isAudioInitialized
      = true :=
  ⟨by
      have h := initializeAudio_dedup_idempotent.1 2
      simpa using h,
   initializeAudio_dedup_idempotent.2.1
     { isAudioInitialized := true, initializationPromise := none } 5 (by decide),
   initializeAudio_dedup_idempotent.2.2
     { isAudioInitialized := false, initializationPromise := some 7 }
     { expoAvAvailable := true, getPermsThrows := false, isAndroid := false
       requestPermsThrows := false, setAudioModeThrows := false } (by decide)⟩

/-- C7: Environmental sampling contract: the fallback service schedules one
immediate collectAndSendData call plus a periodic timer with interval 120000
ms (tick k runs at k times the interval); each send with a known user id
issues exactly one POST of the JSON body with the two entries and
is_auto_generated true to API_URL/users/userId/logs through the fetch wrapper
with an explicit 10000 ms timeout; the wrapper aborts and rejects with the
timeout error after 10000 ms when the fetch has not settled earlier; and a
failed collection leaves the service state (and so the timer) untouched, so
the next tick retries. -/
theorem environmental_sampling_contract :
    EnvServiceModel.DATA_COLLECTION_INTERVAL = 120000 ∧
    (∀ s : EnvServiceModel.ServiceState,
      (EnvServiceModel.startPeriodicCollection s).2 =
        { immediateCall := true, intervalMs := some 120000 } ∧
      (EnvServiceModel.startPeriodicCollection s).1.isRunning = true) ∧
    (∀ k : Nat, EnvServiceModel.invocationTime
      { immediateCall := true, intervalMs := some 120000 } k = some (k * 120000)) ∧
    (∀ uid : Nat, ∀ t l : ℚ,
      EnvServiceModel.sendDataToBackend (some uid) t l = some
        { url := EnvServiceModel.API_URL ++ "/users/" ++ toString uid ++ "/logs",
          httpMethod := "POST",
          contentType := "application/json",
          payload := { entries := [
                           { parameter_id := 15, answer := t, normalised_answer := t / 100 },
                           { parameter_id := 16, answer := l, normalised_answer := l / 120 } ],
                       is_auto_generated := true },
          timeoutMs := 10000 }) ∧
    (EnvServiceModel.fetchWithTimeout 10000 EnvServiceModel.FetchOutcome.pending =
      EnvServiceModel.WrapperResult.timedOutAbort 10000) ∧
    (∀ t : Nat, ¬ t < 10000 →
      EnvServiceModel.fetchWithTimeout 10000 (EnvServiceModel.FetchOutcome.resolvedAt t) =
        EnvServiceModel.WrapperResult.timedOutAbort 10000) ∧
    (∀ b : Bool, ∀ s : EnvServiceModel.ServiceState,
      EnvServiceModel.collectAndSendData b s = s) := by
  refine ⟨rfl, ?_, ?_, ?_, rfl, ?_, ?_⟩
  · intro s
    exact ⟨rfl, rfl⟩
  · intro k
    rfl
  · intro uid t l
    rfl
  · intro t ht
    simp [EnvServiceModel.fetchWithTimeout, ht]
  · intro b s
    rfl

/-- Witness for C7: a fetch settling at 25000 ms is beaten by the 10000 ms
timer and surfaces as an abort-and-reject timeout. -/
theorem environmental_sampling_contract_witness :
    EnvServiceModel.fetchWithTimeout 10000 (EnvServiceModel.FetchOutcome.resolvedAt 25000) =
      EnvServiceModel.WrapperResult.timedOutAbort 10000 :=
  environmental_sampling_contract.2.2.2.2.2.1 25000 (by decide)

/-- C8: Registry totality: getSoundFile is a total function — no path lets a
loader exception escape — returning none both when the id is missing from the
static catalog (and not cached) and when the loader thunk for a catalogued id
throws (leaving the cache untouched); and it returns a handle only when the
id was already cached or its catalogued loader succeeds. -/
theorem getSoundFile_totality (loaderFails : String → Bool)
    (cache : List (String × SoundFilesModel.SoundAsset)) (soundId : String) :
    ((SoundFilesModel.SOUND_FILES.find? (fun p => p.1 == soundId) = none ∧
      cache.find? (fun p => p.1 == soundId) = none) →
      (SoundFilesModel.getSoundFile loaderFails cache soundId).1 = none) ∧
    ((loaderFails soundId = true ∧ cache.find? (fun p => p.1 == soundId) = none) →
      (SoundFilesModel.getSoundFile loaderFails cache soundId).1 = none ∧
      (SoundFilesModel.getSoundFile loaderFails cache soundId).2 = cache) ∧
    (∀ a, (SoundFilesModel.getSoundFile loaderFails cache soundId).1 = some a →
      (∃ p, cache.find? (fun q => q.1 == soundId) = some p ∧ p.2 = a) ∨
      (loaderFails soundId = false ∧
        ∃ entry, SoundFilesModel.SOUND_FILES.find? (fun q => q.1 == soundId) = some entry ∧
          a = SoundFilesModel.SoundAsset.asset entry.2)) := by
  refine ⟨?_, ?_, ?_⟩
  · rintro ⟨h1, h2⟩
    simp [SoundFilesModel.getSoundFile, h1, h2]
  · rintro ⟨h1, h2⟩
    cases h3 : SoundFilesModel.SOUND_FILES.find? (fun p => p.1 == soundId) with
    | none => simp [SoundFilesModel.getSoundFile, h2, h3]
    | some entry => simp [SoundFilesModel.getSoundFile, h1, h2, h3]
  · intro a ha
    cases h2 : cache.find? (fun p => p.1 == soundId) with
    | some p =>
      simp [SoundFilesModel.getSoundFile, h2] at ha
      exact Or.inl ⟨p, rfl, ha⟩
    | none =>
      cases h3 : SoundFilesModel.SOUND_FILES.find? (fun p => p.1 == soundId) with
      | none => simp [SoundFilesModel.getSoundFile, h2, h3] at ha
      | some entry =>
        by_cases h4 : loaderFails soundId = true
        · simp [SoundFilesModel.getSoundFile, h2, h3, h4] at ha
        · simp only [Bool.not_eq_true] at h4
          simp [SoundFilesModel.getSoundFile, h2, h3, h4] at ha
          exact Or.inr ⟨h4, entry, rfl, ha.symm⟩

/-- Witness for C8: an unknown id resolves to none without throwing. -/
theorem getSoundFile_totality_witness :
    (SoundFilesModel.getSoundFile (fun _ => false) [] ("xx9")).1 = none :=
  (getSoundFile_totality (fun _ => false) [] ("xx9")).1 (by decide)

/-- C9: the useAudio facade loadSound discards the manager result: whenever
audio is ready (or lazy initialization succeeds) it returns true regardless
of what soundManager.loadSound returned — including a null source, where the
manager returns false and registers nothing, and a failing native load, where
the manager returns false and deletes the map entry — so a facade caller
cannot tell a failed load from a successful one by the return value. -/
theorem facade_loadSound_ignores_result (ready init : Bool) (f : Faults) (s : SMState)
    (soundId : String) (source : Option String) (h : ready = true ∨ init = true) :
    (UseAudioModel.facadeLoadSound ready init f s soundId source).1 = true ∧
    ((SoundManagerModel.loadSound f s soundId none).1 = false ∧
      (SoundManagerModel.loadSound f s soundId none).2 = s) ∧
    (∀ src : String, f.createThrows = true → s.isAvailable = true →
      (SoundManagerModel.loadSound f s soundId (some src)).1 = false ∧
      lookupSound (SoundManagerModel.loadSound f s soundId (some src)).2 soundId = none) := by
  refine ⟨?_, ?_, ?_⟩
  · rcases h with h | h
    · simp [UseAudioModel.facadeLoadSound, h]
    · by_cases hr : ready = false
      · simp [UseAudioModel.facadeLoadSound, hr, h]
      · simp [UseAudioModel.facadeLoadSound, hr]
  · constructor <;>
    · by_cases h1 : s.isAvailable = false <;> simp [SoundManagerModel.loadSound, h1]
  · intro src hct hav
    constructor
    · simp [SoundManagerModel.loadSound, hav, hct]
    · simp [SoundManagerModel.loadSound, hav, hct, lookupSound, removeSound, findNS_erase_self]

/-- Witness for C9: a null source load fails in the manager but the facade
still reports true. -/
theorem facade_loadSound_ignores_result_witness :
    (UseAudioModel.facadeLoadSound true false NoFaults csTwoIdle idA none).1 = true ∧
    (SoundManagerModel.loadSound NoFaults csTwoIdle idA none).1 = false :=
  ⟨(facade_loadSound_ignores_result true false NoFaults csTwoIdle idA none (by decide)).1,
   ((facade_loadSound_ignores_result true false NoFaults csTwoIdle idA none (by decide)).2.1).1⟩

/-- C10: the completion observer attached in loadSound clears the
currently-playing slot without checking which sound finished: when a loaded
sound X finishes while a different sound Y occupies the slot and is natively
playing, the slot is cleared to none even though Y is still playing. -/
theorem finish_event_clears_other_playing (s : SMState) (X Y : String)
    (nsX nsY : NativeSound) (hXY : X ≠ Y)
    (hcp : s.currentlyPlaying = some Y)
    (hX : lookupSound s X = some nsX) (hXL : nsX.isLoaded = true)
    (hY : lookupSound s Y = some nsY) (hYP : nsY.isPlaying = true) :
    (finishEvent s X).currentlyPlaying = none ∧
    lookupSound (finishEvent s X) Y = some nsY ∧ nsY.isPlaying = true := by
  have hfe : finishEvent s X =
      { setSound s X { nsX with isPlaying := false, positionMillis := 0 } with
          currentlyPlaying := none } := by
    simp [finishEvent, hX, hXL]
  refine ⟨by rw [hfe], ?_, hYP⟩
  rw [hfe, lookupSound_setSound_cp_ne s X Y _ none (fun hh => hXY hh.symm)]
  exact hY

/-- Witness for C10 at a concrete state: sound a finishes while b is playing;
the slot is cleared though b still plays. -/
theorem finish_event_clears_other_playing_witness :
    (finishEvent csPlayingB idA).currentlyPlaying = none ∧
    lookupSound (finishEvent csPlayingB idA) idB = some nsPlaying ∧
    nsPlaying.isPlaying = true :=
  finish_event_clears_other_playing csPlayingB idA idB nsIdle nsPlaying (by decide) (by decide)
    (by decide) (by decide) (by decide) (by decide)
